import Mathlib

/-!
Shallow embedding of the watermark engine of GeminiWatermarkTool
(src/core/watermark_engine.cpp together with src/core/watermark_engine.hpp).

Modelling conventions. Score arithmetic of the C++ code (doubles and
floats) is modelled over the rationals, with decimal literals denoting
the same rational constants that appear in the source. Pixel data and
the OpenCV numeric kernels (cv::matchTemplate, cv::Sobel, cv::meanStdDev,
cv::cvtColor, cv::resize) are external library calls from the point of
view of the repository; they are modelled as abstract total functions
supplied as parameters, at exactly the call granularity of the source.
The floating point square root used by the guided locator is likewise an
abstract function parameter; theorems constrain it only at rational
points where the real square root is exact. Image dimensions are
machine ints, modelled as unbounded integers (the source never comes
close to overflow on valid image sizes).
-/

set_option allowUnsafeReducibility true in
attribute [semireducible] Rat.add Rat.sub Rat.mul Rat.div Rat.inv Rat.neg Rat.blt Rat.normalize mkRat Rat.ofScientific

/-- WatermarkSize from watermark_engine.hpp: Small selects the 48x48 alpha
map, Large the 96x96 one. -/
inductive WatermarkSize
  | Small
  | Large
  deriving DecidableEq, Repr

/-- WatermarkPosition from watermark_engine.hpp: margins from the right and
bottom edges plus the logo side length. -/
structure WatermarkPosition where
  margin_right : Int
  margin_bottom : Int
  logo_size : Int
  deriving DecidableEq, Repr

/-- Direct translation of WatermarkPosition::get_position: the top left
corner of the watermark box, with no clamping. -/
def WatermarkPosition.get_position (c : WatermarkPosition)
    (image_width image_height : Int) : Int × Int :=
  (image_width - c.margin_right - c.logo_size,
   image_height - c.margin_bottom - c.logo_size)

/-- Translation of gwt::get_watermark_config from watermark_engine.cpp. -/
def get_watermark_config (image_width image_height : Int) : WatermarkPosition :=
  if image_width > 1024 ∧ image_height > 1024 then
    { margin_right := 64, margin_bottom := 64, logo_size := 96 }
  else
    { margin_right := 32, margin_bottom := 32, logo_size := 48 }

/-- Translation of gwt::get_watermark_size from watermark_engine.cpp. -/
def get_watermark_size (image_width image_height : Int) : WatermarkSize :=
  if image_width > 1024 ∧ image_height > 1024 then WatermarkSize.Large
  else WatermarkSize.Small

/-- Side length of the alpha map selected by a WatermarkSize. The
constructor init_alpha_maps resizes the captures so that the small map is
exactly 48x48 and the large map exactly 96x96, hence alpha_map.cols and
alpha_map.rows equal this value. -/
def logoSide : WatermarkSize → Int
  | WatermarkSize.Small => 48
  | WatermarkSize.Large => 96

/-- cv::Rect with int fields, as used throughout the engine. -/
structure Rect where
  x : Int
  y : Int
  width : Int
  height : Int
  deriving DecidableEq, Repr

/-- A cv::Mat image buffer: dimensions, channel count, and abstract pixel
payload. OpenCV channel conversions preserve cols and rows, which the
model bakes in by keeping the payload in a separate field. -/
structure Image (Pix : Type) where
  cols : Int
  rows : Int
  channels : Int
  data : Pix
  deriving DecidableEq

/-- cv::Mat::empty for a 2D matrix: no pixels. -/
def Image.isEmpty {Pix : Type} (img : Image Pix) : Prop :=
  img.cols ≤ 0 ∨ img.rows ≤ 0

instance {Pix : Type} (img : Image Pix) : Decidable img.isEmpty :=
  inferInstanceAs (Decidable (_ ∨ _))

/-- DetectionResult from watermark_engine.hpp. -/
structure DetectionResult where
  detected : Bool
  confidence : ℚ
  region : Rect
  size : WatermarkSize
  spatial_score : ℚ
  gradient_score : ℚ
  variance_score : ℚ
  deriving DecidableEq, Repr

/-- The value-initialized DetectionResult result{} at the top of
detect_watermark: everything zero, size at its first enumerator. -/
def zeroDetection : DetectionResult :=
  { detected := false, confidence := 0, region := ⟨0, 0, 0, 0⟩,
    size := WatermarkSize.Small, spatial_score := 0, gradient_score := 0,
    variance_score := 0 }

/-- std::clamp on rationals: clampQ lo hi v clamps v into [lo, hi]. -/
def clampQ (lo hi v : ℚ) : ℚ := max lo (min hi v)

/-- The OpenCV numeric kernels of detect_watermark, abstracted per call:
spatial r is the maximum of cv::matchTemplate (TM_CCOEFF_NORMED) between
the grayscale crop at r and the alpha crop; grad r is the same maximum for
the Sobel gradient magnitude fields; sd r is the grayscale standard
deviation cv::meanStdDev reports on the crop at r. The image and alpha
map of the call are fixed, so each kernel is a function of the rectangle
alone. -/
structure DetectOracle where
  spatial : Rect → ℚ
  grad : Rect → ℚ
  sd : Rect → ℚ

/-- The geometry detect_watermark computes before scoring: chosen size,
position config from the image dimensions, unclamped top left corner,
alpha side, and the clamped bounds x1 y1 x2 y2. -/
structure DetGeom where
  size : WatermarkSize
  config : WatermarkPosition
  posX : Int
  posY : Int
  side : Int
  x1 : Int
  y1 : Int
  x2 : Int
  y2 : Int
  deriving DecidableEq, Repr

/-- Translation of the geometry block of detect_watermark (lines 239 to
252 of watermark_engine.cpp): the size honours force_size, the position
config comes from get_watermark_config on the image dimensions, and the
candidate box is clamped to the image bounds. -/
def detect_geom (cols rows : Int) (force_size : Option WatermarkSize) : DetGeom :=
  let size := force_size.getD (get_watermark_size cols rows)
  let config := get_watermark_config cols rows
  let pos := config.get_position cols rows
  let side := logoSide size
  { size := size, config := config, posX := pos.1, posY := pos.2, side := side,
    x1 := max 0 pos.1, y1 := max 0 pos.2,
    x2 := min cols (pos.1 + side), y2 := min rows (pos.2 + side) }

/-- The unclamped region stored into result.region: top left from the
position config, extent from the alpha map side. -/
def detRegion (g : DetGeom) : Rect := ⟨g.posX, g.posY, g.side, g.side⟩

/-- The clamped image_roi rectangle of detect_watermark. -/
def detRoi (g : DetGeom) : Rect := ⟨g.x1, g.y1, g.x2 - g.x1, g.y2 - g.y1⟩

/-- The ref_roi reference strip of stage 3: directly above the clamped
region, of the given height. -/
def detRefRect (g : DetGeom) (ref_h : Int) : Rect :=
  ⟨g.x1, g.y1 - ref_h, g.x2 - g.x1, ref_h⟩

/-- Stage 3 of detect_watermark: variance dampening. The strip height is
min y1 config.logo_size; the stage body runs only when that height is
strictly greater than 8, and contributes clamp(1 - s_wm / s_ref, 0, 1)
when the reference deviation exceeds 5. -/
def detVarScore (O : DetectOracle) (g : DetGeom) : ℚ :=
  if min g.y1 g.config.logo_size > 8 then
    if O.sd (detRefRect g (min g.y1 g.config.logo_size)) > 5 then
      clampQ 0 1 (1 - O.sd (detRoi g) / O.sd (detRefRect g (min g.y1 g.config.logo_size)))
    else 0
  else 0

/-- The weighted ensemble of detect_watermark: spatial times 0.50 plus
gradient times 0.30 plus variance times 0.20, clamped to [0, 1]. -/
def detConfidence (O : DetectOracle) (g : DetGeom) : ℚ :=
  clampQ 0 1 (O.spatial (detRoi g) * 0.50 + O.grad (detRoi g) * 0.30
    + detVarScore O g * 0.20)

/-- Stages 1 to 3 of detect_watermark after the geometry guard: the
circuit breaker rejects below spatial 0.25 with confidence spatial * 0.5
and the later stage fields left at their zero defaults; otherwise the
three scores are fused and thresholded at 0.35. -/
def detect_core (O : DetectOracle) (g : DetGeom) : DetectionResult :=
  if O.spatial (detRoi g) < 0.25 then
    { zeroDetection with
      size := g.size, region := detRegion g,
      spatial_score := O.spatial (detRoi g),
      confidence := O.spatial (detRoi g) * 0.5 }
  else
    { detected := decide (detConfidence O g ≥ 0.35),
      confidence := detConfidence O g,
      region := detRegion g, size := g.size,
      spatial_score := O.spatial (detRoi g),
      gradient_score := O.grad (detRoi g),
      variance_score := detVarScore O g }

/-- Translation of WatermarkEngine::detect_watermark: empty images yield
the zero result, a degenerate clamped region yields the zero scores with
the size and unclamped region still reported, and otherwise the
three-stage core runs. -/
def detect_watermark {Pix : Type} (O : DetectOracle) (img : Image Pix)
    (force_size : Option WatermarkSize) : DetectionResult :=
  if img.isEmpty then zeroDetection
  else if (detect_geom img.cols img.rows force_size).x1 ≥
            (detect_geom img.cols img.rows force_size).x2 ∨
          (detect_geom img.cols img.rows force_size).y1 ≥
            (detect_geom img.cols img.rows force_size).y2 then
    { zeroDetection with
      size := (detect_geom img.cols img.rows force_size).size,
      region := detRegion (detect_geom img.cols img.rows force_size) }
  else detect_core O (detect_geom img.cols img.rows force_size)

/-!
Engine facade: removal and addition. The blending kernels live in
blend_modes.cpp, which is not part of the sources here; only their call
sites are. They are therefore abstract total function parameters: a
blend consumes the (already channel normalized) image, an alpha map, a
top left position and the logo brightness, and yields the new pixel
payload of the same image geometry. cv::cvtColor conversions are
likewise abstract payload transformations; they preserve cols and rows.
-/

/-- WatermarkEngine state: the two precomputed alpha maps and the logo
brightness constant. Alpha maps are opaque to the claims, so their type
is a parameter. -/
structure WatermarkEngine (Alpha : Type) where
  alpha_map_small_ : Alpha
  alpha_map_large_ : Alpha
  logo_value_ : ℚ

/-- Translation of WatermarkEngine::get_alpha_map. -/
def WatermarkEngine.get_alpha_map {Alpha : Type} (eng : WatermarkEngine Alpha) :
    WatermarkSize → Alpha
  | WatermarkSize.Small => eng.alpha_map_small_
  | WatermarkSize.Large => eng.alpha_map_large_

/-- The OpenCV and blend_modes primitives the engine calls, abstracted as
total functions: BGRA to BGR and GRAY to BGR payload conversions, the
reverse and forward alpha blends, and create_interpolated_alpha (the
cv::resize of the 96x96 map to a custom extent, including its internal
interpolation method selection). -/
structure CvPrims (Pix Alpha : Type) where
  bgra2bgr : Pix → Pix
  gray2bgr : Pix → Pix
  remove_watermark_alpha_blend : Image Pix → Alpha → Int × Int → ℚ → Pix
  add_watermark_alpha_blend : Image Pix → Alpha → Int × Int → ℚ → Pix
  create_interpolated_alpha : Alpha → Int → Int → Alpha

/-- The channel normalization prologue shared by remove_watermark,
add_watermark and the custom variants: 4 channels are converted BGRA to
BGR, 1 channel GRAY to BGR, anything else is left alone. -/
def ensure_bgr {Pix Alpha : Type} (P : CvPrims Pix Alpha) (img : Image Pix) : Image Pix :=
  if img.channels = 4 then { img with channels := 3, data := P.bgra2bgr img.data }
  else if img.channels = 1 then { img with channels := 3, data := P.gray2bgr img.data }
  else img

/-- Translation of WatermarkEngine::remove_watermark: throws (none) on an
empty image, otherwise normalizes channels, picks the size (forced or
from the dimensions), rebuilds the position config from the size actually
used, and blends in reverse at the computed position. -/
def remove_watermark {Pix Alpha : Type} (P : CvPrims Pix Alpha)
    (eng : WatermarkEngine Alpha) (img : Image Pix)
    (force_size : Option WatermarkSize) : Option (Image Pix) :=
  if img.isEmpty then none
  else
    let img1 := ensure_bgr P img
    let size := force_size.getD (get_watermark_size img1.cols img1.rows)
    let config : WatermarkPosition :=
      if size = WatermarkSize.Small then ⟨32, 32, 48⟩ else ⟨64, 64, 96⟩
    let pos := config.get_position img1.cols img1.rows
    some { img1 with
           data := P.remove_watermark_alpha_blend img1 (eng.get_alpha_map size)
             pos eng.logo_value_ }

/-- Translation of WatermarkEngine::add_watermark, identical to removal
except that the forward blend is applied. -/
def add_watermark {Pix Alpha : Type} (P : CvPrims Pix Alpha)
    (eng : WatermarkEngine Alpha) (img : Image Pix)
    (force_size : Option WatermarkSize) : Option (Image Pix) :=
  if img.isEmpty then none
  else
    let img1 := ensure_bgr P img
    let size := force_size.getD (get_watermark_size img1.cols img1.rows)
    let config : WatermarkPosition :=
      if size = WatermarkSize.Small then ⟨32, 32, 48⟩ else ⟨64, 64, 96⟩
    let pos := config.get_position img1.cols img1.rows
    some { img1 with
           data := P.add_watermark_alpha_blend img1 (eng.get_alpha_map size)
             pos eng.logo_value_ }

/-- Translation of WatermarkEngine::remove_watermark_custom: throws
(none) on an empty image, otherwise normalizes channels and dispatches on
the exact region extent, using the precomputed small map for 48x48, the
precomputed large map for 96x96, and an interpolated map otherwise. -/
def remove_watermark_custom {Pix Alpha : Type} (P : CvPrims Pix Alpha)
    (eng : WatermarkEngine Alpha) (img : Image Pix) (region : Rect) :
    Option (Image Pix) :=
  if img.isEmpty then none
  else
    let img1 := ensure_bgr P img
    if region.width = 48 ∧ region.height = 48 then
      some { img1 with
             data := P.remove_watermark_alpha_blend img1 eng.alpha_map_small_
               (region.x, region.y) eng.logo_value_ }
    else if region.width = 96 ∧ region.height = 96 then
      some { img1 with
             data := P.remove_watermark_alpha_blend img1 eng.alpha_map_large_
               (region.x, region.y) eng.logo_value_ }
    else
      some { img1 with
             data := P.remove_watermark_alpha_blend img1
               (P.create_interpolated_alpha eng.alpha_map_large_ region.width region.height)
               (region.x, region.y) eng.logo_value_ }

/-- Translation of WatermarkEngine::add_watermark_custom, the forward
counterpart of remove_watermark_custom. -/
def add_watermark_custom {Pix Alpha : Type} (P : CvPrims Pix Alpha)
    (eng : WatermarkEngine Alpha) (img : Image Pix) (region : Rect) :
    Option (Image Pix) :=
  if img.isEmpty then none
  else
    let img1 := ensure_bgr P img
    if region.width = 48 ∧ region.height = 48 then
      some { img1 with
             data := P.add_watermark_alpha_blend img1 eng.alpha_map_small_
               (region.x, region.y) eng.logo_value_ }
    else if region.width = 96 ∧ region.height = 96 then
      some { img1 with
             data := P.add_watermark_alpha_blend img1 eng.alpha_map_large_
               (region.x, region.y) eng.logo_value_ }
    else
      some { img1 with
             data := P.add_watermark_alpha_blend img1
               (P.create_interpolated_alpha eng.alpha_map_large_ region.width region.height)
               (region.x, region.y) eng.logo_value_ }

/-!
Guided multi-scale detection (WatermarkEngine::guided_detect). The per
scale NCC template match is abstracted as an oracle giving the best value
and location cv::minMaxLoc reports for that template scale over the fixed
grayscale search region. The cancellation atomic is modelled as the
sequence of values its successive loads observe, indexed by the number of
loads performed so far. The declaration of GuidedDetectionResult is not
among the sources; its fields are modelled from the spec (found,
confidence, raw correlation, match region, detected size, scales
searched, total scales, was cancelled) and match every use site in
watermark_engine.cpp, with the zero value produced by value
initialization. -/

/-- GuidedDetectionResult. Modelled from the spec: the result record of
the guided locator, section 3 of the spec; the struct declaration itself
is not among the sources, but every field below is read or written by
WatermarkEngine::guided_detect in watermark_engine.cpp. -/
structure GuidedDetectionResult where
  found : Bool
  confidence : ℚ
  raw_ncc : ℚ
  match_rect : Rect
  detected_size : Int
  scales_searched : Int
  total_scales : Int
  was_cancelled : Bool
  deriving DecidableEq, Repr

/-- The value-initialized GuidedDetectionResult result{}. -/
def gdZero : GuidedDetectionResult :=
  { found := false, confidence := 0, raw_ncc := 0, match_rect := ⟨0, 0, 0, 0⟩,
    detected_size := 0, scales_searched := 0, total_scales := 0,
    was_cancelled := false }

/-- The best match cv::minMaxLoc reports for one template scale: maximum
value and its location inside the search region. -/
structure NccHit where
  val : ℚ
  x : Int
  y : Int
  deriving DecidableEq, Repr

/-- The cv::matchTemplate plus cv::minMaxLoc kernel of guided_detect,
abstracted per call as a function of the template scale (the image,
search region and source alpha map of the call are fixed). -/
structure GuidedOracle where
  ncc : Int → NccHit

/-- One candidate of the coarse phase: position, template scale, raw NCC
score and size-adjusted score. -/
structure Candidate where
  x : Int
  y : Int
  scale : Int
  raw_score : ℚ
  adjusted_score : ℚ
  deriving DecidableEq, Repr

/-- Translation of the size_adjusted_score lambda of guided_detect:
weight is the square root of scale over the reference size 96, capped at
one, and multiplies the raw score. sqrtFn is the abstract floating point
square root. -/
def size_adjusted_score (sqrtFn : ℚ → ℚ) (raw_ncc : ℚ) (scale : Int) : ℚ :=
  raw_ncc * min (sqrtFn ((scale : ℚ) / 96)) 1

/-- cv::Rect intersection (operator&): the overlap, or the zero rectangle
when the overlap is empty. -/
def rectInter (a b : Rect) : Rect :=
  let x1 := max a.x b.x
  let y1 := max a.y b.y
  let w := min (a.x + a.width) (b.x + b.width) - x1
  let h := min (a.y + a.height) (b.y + b.height) - y1
  if w ≤ 0 ∨ h ≤ 0 then ⟨0, 0, 0, 0⟩ else ⟨x1, y1, w, h⟩

/-- The values taken by a C style for loop from lo to hi inclusive in the
given positive step. -/
def stepList (lo hi step : Int) : List Int :=
  if lo > hi ∨ step ≤ 0 then []
  else (List.range (((hi - lo) / step).toNat + 1)).map (fun (i : ℕ) => lo + step * (i : Int))

/-- Insertion into a list sorted by decreasing adjusted score. -/
def insertDesc (c : Candidate) : List Candidate → List Candidate
  | [] => [c]
  | d :: rest =>
    if c.adjusted_score ≥ d.adjusted_score then c :: d :: rest
    else d :: insertDesc c rest

/-- Sorting by decreasing adjusted score. std::sort with the strict
comparator on adjusted scores leaves the order of ties unspecified; this
model fixes one order consistent with that comparator. -/
def sortDesc : List Candidate → List Candidate
  | [] => []
  | c :: rest => insertDesc c (sortDesc rest)

/-- The top-K insertion of the coarse phase: push and sort while fewer
than five candidates are held, otherwise replace the worst held candidate
when the new adjusted score beats it. -/
def insertTopK (cands : List Candidate) (c : Candidate) : List Candidate :=
  if cands.length < 5 then sortDesc (c :: cands)
  else if c.adjusted_score > ((cands.getLast?).getD c).adjusted_score then
    sortDesc (c :: cands.dropLast)
  else cands

/-- Whether a standard size is already within two pixels of a sampled
coarse scale. -/
def stdAlreadyPresent (acc : List Int) (std_size : Int) : Bool :=
  acc.any (fun s => decide ((s - std_size).natAbs ≤ 2))

/-- Ascending insertion used to model std::sort on the scale list (ties
are equal ints, so the sorted list is unique). -/
def insertAsc (x : Int) : List Int → List Int
  | [] => [x]
  | y :: rest => if x ≤ y then x :: y :: rest else y :: insertAsc x rest

/-- Ascending insertion sort on the scale list. -/
def sortAsc : List Int → List Int
  | [] => []
  | x :: rest => insertAsc x (sortAsc rest)

/-- The coarse scale list of guided_detect: min to max in steps of eight,
the standard sizes 48 and 96 appended when in range and not within two
pixels of a sampled scale, then sorted ascending. -/
def coarseScales (min_size max_size : Int) : List Int :=
  let base := stepList min_size max_size 8
  let withStd := [(48 : Int), 96].foldl
    (fun acc std_size =>
      if min_size ≤ std_size ∧ std_size ≤ max_size ∧
          stdAlreadyPresent acc std_size = false then acc ++ [std_size]
      else acc)
    base
  sortAsc withStd

/-- Phase 1 of guided_detect: walk the coarse scales, polling the
cancellation flag at the start of every iteration, skipping templates
that do not fit the search region (still counted as searched), and
feeding every fitting scale through the NCC oracle, the size adjustment,
the 0.08 floor and the top-K insertion. Returns the candidates, the
scales searched count, the number of flag loads performed and whether the
loop was cancelled. -/
def coarseLoop (sqrtFn : ℚ → ℚ) (O : GuidedOracle) (cancel : Nat → Bool)
    (gw gh : Int) :
    List Int → List Candidate → Int → Nat → List Candidate × Int × Nat × Bool
  | [], cands, searched, polls => (cands, searched, polls, false)
  | scale :: rest, cands, searched, polls =>
    if cancel polls then (cands, searched, polls + 1, true)
    else if scale > gw ∨ scale > gh then
      coarseLoop sqrtFn O cancel gw gh rest cands (searched + 1) (polls + 1)
    else
      let hit := O.ncc scale
      let adj := size_adjusted_score sqrtFn hit.val scale
      let cands1 :=
        if adj > 0.08 then insertTopK cands ⟨hit.x, hit.y, scale, hit.val, adj⟩
        else cands
      coarseLoop sqrtFn O cancel gw gh rest cands1 (searched + 1) (polls + 1)

/-- The inner scale refinement of phase 2: step through the fine scales,
skip templates that do not fit, and keep the best adjusted score seen. -/
def fineScan (sqrtFn : ℚ → ℚ) (O : GuidedOracle) (gw gh : Int)
    (scales : List Int) (best0 : Candidate) : Candidate :=
  scales.foldl
    (fun best s =>
      if s > gw ∨ s > gh then best
      else
        let hit := O.ncc s
        let adj := size_adjusted_score sqrtFn hit.val s
        if adj > best.adjusted_score then ⟨hit.x, hit.y, s, hit.val, adj⟩
        else best)
    best0

/-- Phase 2 of guided_detect: for each coarse candidate, polling the flag
first, refine the scale in a window of plus or minus ten stepped by two
and track the single best adjusted candidate. -/
def fineLoop (sqrtFn : ℚ → ℚ) (O : GuidedOracle) (cancel : Nat → Bool)
    (gw gh min_size max_size : Int) :
    List Candidate → Candidate → Nat → Candidate × Bool
  | [], best, _ => (best, false)
  | c :: rest, best, polls =>
    if cancel polls then (best, true)
    else
      let lo := max min_size (c.scale - 10)
      let hi := min max_size (c.scale + 10)
      let best1 := fineScan sqrtFn O gw gh (stepList lo hi 2) best
      fineLoop sqrtFn O cancel gw gh min_size max_size rest best1 (polls + 1)

/-- Translation of WatermarkEngine::guided_detect: degenerate inputs
return the zero result; otherwise the coarse phase fills the top
candidates, an empty candidate list returns the partial counters, and the
fine phase refines, reporting a find only above the 0.08 floor on the
adjusted score. -/
def guided_detect {Pix : Type} (sqrtFn : ℚ → ℚ) (O : GuidedOracle)
    (cancel : Nat → Bool) (img : Image Pix) (search_rect : Rect)
    (min_size0 max_size0 : Int) : GuidedDetectionResult :=
  if img.isEmpty ∨ search_rect.width < 8 ∨ search_rect.height < 8 then gdZero
  else
    let search := rectInter search_rect ⟨0, 0, img.cols, img.rows⟩
    if search.width < 8 ∨ search.height < 8 then gdZero
    else
      let min_size := max min_size0 16
      let max_size := min max_size0 (min search.width search.height)
      if min_size > max_size then gdZero
      else
        let scalesL := coarseScales min_size max_size
        let st := coarseLoop sqrtFn O cancel search.width search.height scalesL [] 0 0
        let base := { gdZero with
                      total_scales := scalesL.length,
                      scales_searched := st.2.1,
                      was_cancelled := st.2.2.2 }
        if st.1 = [] then base
        else
          let fr := fineLoop sqrtFn O cancel search.width search.height
            min_size max_size st.1 ⟨0, 0, 0, -1, -1⟩ st.2.2.1
          let r1 := { base with was_cancelled := st.2.2.2 || fr.2 }
          if fr.1.adjusted_score > 0.08 then
            { r1 with
              found := true, confidence := fr.1.adjusted_score,
              raw_ncc := fr.1.raw_score,
              match_rect := ⟨search.x + fr.1.x, search.y + fr.1.y,
                fr.1.scale, fr.1.scale⟩,
              detected_size := fr.1.scale }
          else r1

/-!
Helper lemmas and concrete instances used by the claim theorems and
their witnesses.
-/

/-- Channel normalization never changes the column count. -/
theorem ensure_bgr_cols {Pix Alpha : Type} (P : CvPrims Pix Alpha) (img : Image Pix) :
    (ensure_bgr P img).cols = img.cols := by
  unfold ensure_bgr
  split_ifs <;> rfl

/-- Channel normalization never changes the row count. -/
theorem ensure_bgr_rows {Pix Alpha : Type} (P : CvPrims Pix Alpha) (img : Image Pix) :
    (ensure_bgr P img).rows = img.rows := by
  unfold ensure_bgr
  split_ifs <;> rfl

/-- A detection oracle returning fixed values, used as a concrete
instance in witnesses. -/
def oracleConst (a b c : ℚ) : DetectOracle :=
  { spatial := fun _ => a, grad := fun _ => b, sd := fun _ => c }

/-- A detection oracle whose standard deviation distinguishes rectangles
by height: the oracle reports deviation 10 on rectangles of the given
height and 0 elsewhere. Used to separate the reference strip from the
candidate region in concrete detector runs. -/
def oracleStrip (strip_h : Int) : DetectOracle :=
  { spatial := fun _ => 1, grad := fun _ => 0,
    sd := fun r => if r.height = strip_h then 10 else 0 }

/-- A guided oracle returning a fixed hit, used in witnesses. -/
def guidedOracleConst (v : ℚ) : GuidedOracle := { ncc := fun _ => ⟨v, 0, 0⟩ }

/-- A concrete square root table agreeing with the real square root at
the two exact rational points the ranking facts need. -/
def sqrtTab : ℚ → ℚ :=
  fun q => if q = 1 then 1 else if q = 1 / 4 then 1 / 2 else 0

/-- A guided oracle reporting raw NCC 0.30 at template scale 96, raw NCC
0.58 at template scale 24 and 0 elsewhere, realizing the ranking example
of the spec. -/
def guidedOracleRank : GuidedOracle :=
  { ncc := fun s =>
      if s = 96 then ⟨0.30, 5, 5⟩
      else if s = 24 then ⟨0.58, 10, 10⟩
      else ⟨0, 0, 0⟩ }

/-- Trivial pixel and alpha primitives over the unit payload. -/
def trivPrims : CvPrims Unit Unit :=
  { bgra2bgr := fun _ => (), gray2bgr := fun _ => (),
    remove_watermark_alpha_blend := fun _ _ _ _ => (),
    add_watermark_alpha_blend := fun _ _ _ _ => (),
    create_interpolated_alpha := fun _ _ _ => () }

/-- Trivial engine over the unit alpha type, at the default logo
brightness 255. -/
def trivEngine : WatermarkEngine Unit :=
  { alpha_map_small_ := (), alpha_map_large_ := (), logo_value_ := 255 }

/-!
Claim theorems.
-/

/-- Claim C2: the size classifier returns Large exactly when both
dimensions strictly exceed 1024 and Small otherwise; in particular a
1024x1024 image is classified Small. -/
theorem size_classifier_iff :
    (∀ w h : Int, get_watermark_size w h = WatermarkSize.Large ↔ (1024 < w ∧ 1024 < h)) ∧
    (∀ w h : Int, get_watermark_size w h = WatermarkSize.Small ↔ ¬ (1024 < w ∧ 1024 < h)) ∧
    get_watermark_size 1024 1024 = WatermarkSize.Small := by
  refine ⟨fun w h => ?_, fun w h => ?_, by decide⟩ <;>
    unfold get_watermark_size <;> split_ifs with hc <;> simp_all

/-- Claim C9 counterexample: the spec example classify(1025, 2000) =
Small is false on the code; both 1025 and 2000 strictly exceed 1024, so
the classifier returns Large. -/
theorem classify_boundary_counterexample :
    get_watermark_size 1025 2000 = WatermarkSize.Large ∧
    get_watermark_size 1025 2000 ≠ WatermarkSize.Small := by
  decide

/-- Claim C9 amended: the boundary examples with the fourth corrected:
classify(1024, 1024) = Small, classify(1025, 1025) = Large,
classify(2000, 500) = Small, and classify(1025, 2000) = Large, since
both of its dimensions exceed 1024. -/
theorem classify_boundary_amended :
    get_watermark_size 1024 1024 = WatermarkSize.Small ∧
    get_watermark_size 1025 1025 = WatermarkSize.Large ∧
    get_watermark_size 2000 500 = WatermarkSize.Small ∧
    get_watermark_size 1025 2000 = WatermarkSize.Large := by
  decide

/-- Claim C10: for every non-empty image the reported region is the
unclamped standard box: top left from the margin rule applied to the
image dimensions, extent equal to the side of the selected alpha map,
regardless of clamping or early exits. -/
theorem detect_region_unclamped {Pix : Type} (O : DetectOracle) (img : Image Pix)
    (force_size : Option WatermarkSize) (hne : ¬ img.isEmpty) :
    (detect_watermark O img force_size).region =
      ⟨((get_watermark_config img.cols img.rows).get_position img.cols img.rows).1,
       ((get_watermark_config img.cols img.rows).get_position img.cols img.rows).2,
       logoSide (force_size.getD (get_watermark_size img.cols img.rows)),
       logoSide (force_size.getD (get_watermark_size img.cols img.rows))⟩ := by
  have hreg : detRegion (detect_geom img.cols img.rows force_size) =
      ⟨((get_watermark_config img.cols img.rows).get_position img.cols img.rows).1,
       ((get_watermark_config img.cols img.rows).get_position img.cols img.rows).2,
       logoSide (force_size.getD (get_watermark_size img.cols img.rows)),
       logoSide (force_size.getD (get_watermark_size img.cols img.rows))⟩ := rfl
  unfold detect_watermark
  rw [if_neg hne]
  split_ifs with hg
  · exact hreg
  · unfold detect_core
    split_ifs <;> exact hreg

/-- Claim C10 witness: on a 10x10 image (whose clamped candidate region
is empty, so the zero confidence path is taken) the reported region is
the out-of-bounds box at (-70, -70) of extent 48x48. -/
theorem detect_region_unclamped_witness :
    ¬ (Image.mk 10 10 3 ()).isEmpty ∧
    (detect_watermark (oracleConst 0 0 0) (Image.mk 10 10 3 ()) none).region =
      ⟨-70, -70, 48, 48⟩ ∧
    (detect_watermark (oracleConst 0 0 0) (Image.mk 10 10 3 ()) none).confidence = 0 :=
  ⟨by decide,
   (detect_region_unclamped (oracleConst 0 0 0) (Image.mk 10 10 3 ()) none
     (by decide)).trans (by decide),
   by decide⟩

/-- Claim C8 counterexample: on a 2000x2000 image with Small forced, the
code places the candidate box with the margin rule of the automatically
classified size (Large, 64px margins, 96px side offset), at
(2000-64-96, 2000-64-96) = (1840, 1840), not at the Small rule position
(2000-32-48, 2000-32-48) = (1920, 1920) that the claim requires. -/
theorem forced_size_region_counterexample :
    (detect_watermark (oracleConst 0 0 0) (Image.mk 2000 2000 3 ())
      (some WatermarkSize.Small)).region = ⟨1840, 1840, 48, 48⟩ ∧
    (detect_watermark (oracleConst 0 0 0) (Image.mk 2000 2000 3 ())
      (some WatermarkSize.Small)).region ≠ ⟨1920, 1920, 48, 48⟩ := by
  decide

/-- Claim C8 amended: with an explicit size override, the candidate box
side is the overridden size logo side, but its top left position comes
from the margin rule of the size that automatic classification of the
image dimensions selects (get_watermark_config), not from the overridden
size margin rule. -/
theorem forced_size_region_amended {Pix : Type} (O : DetectOracle) (img : Image Pix)
    (s : WatermarkSize) (hne : ¬ img.isEmpty) :
    (detect_watermark O img (some s)).size = s ∧
    (detect_watermark O img (some s)).region =
      ⟨((get_watermark_config img.cols img.rows).get_position img.cols img.rows).1,
       ((get_watermark_config img.cols img.rows).get_position img.cols img.rows).2,
       logoSide s, logoSide s⟩ := by
  have hreg : detRegion (detect_geom img.cols img.rows (some s)) =
      ⟨((get_watermark_config img.cols img.rows).get_position img.cols img.rows).1,
       ((get_watermark_config img.cols img.rows).get_position img.cols img.rows).2,
       logoSide s, logoSide s⟩ := rfl
  have hsize : (detect_geom img.cols img.rows (some s)).size = s := rfl
  unfold detect_watermark
  rw [if_neg hne]
  split_ifs with hg
  · exact ⟨hsize, hreg⟩
  · unfold detect_core
    split_ifs <;> exact ⟨hsize, hreg⟩

/-- Claim C8 amended witness: the concrete 2000x2000 run with Small
forced reports size Small and the box (1840, 1840, 48, 48) given by the
Large margin rule of the automatic classification. -/
theorem forced_size_region_amended_witness :
    ¬ (Image.mk 2000 2000 3 ()).isEmpty ∧
    (detect_watermark (oracleConst 1 0 0) (Image.mk 2000 2000 3 ())
      (some WatermarkSize.Small)).size = WatermarkSize.Small ∧
    (detect_watermark (oracleConst 1 0 0) (Image.mk 2000 2000 3 ())
      (some WatermarkSize.Small)).region = ⟨1840, 1840, 48, 48⟩ :=
  ⟨by decide,
   (forced_size_region_amended (oracleConst 1 0 0) (Image.mk 2000 2000 3 ())
     WatermarkSize.Small (by decide)).1,
   ((forced_size_region_amended (oracleConst 1 0 0) (Image.mk 2000 2000 3 ())
     WatermarkSize.Small (by decide)).2).trans (by decide)⟩

/-- Claim C7 counterexample: on a 100x88 image the clamped candidate
region starts at y = 8, so the reference strip is exactly 8 pixels tall;
the oracle reports deviation 10 (> 5) on it and 0 on the candidate
region, so the claim demands variance score clamp(1 - 0/10, 0, 1) = 1,
but the code skips stage 3 for strips of 8 pixels (its test is strictly
greater than 8) and reports 0. -/
theorem variance_gate_counterexample :
    min (detect_geom 100 88 none).y1 (detect_geom 100 88 none).config.logo_size = 8 ∧
    (oracleStrip 8).sd (detRefRect (detect_geom 100 88 none) 8) = 10 ∧
    (detect_watermark (oracleStrip 8) (Image.mk 100 88 3 ()) none).variance_score = 0 ∧
    (detect_watermark (oracleStrip 8) (Image.mk 100 88 3 ()) none).variance_score ≠
      clampQ 0 1 (1 - (oracleStrip 8).sd (detRoi (detect_geom 100 88 none)) /
        (oracleStrip 8).sd (detRefRect (detect_geom 100 88 none) 8)) := by
  decide

/-- Claim C7 amended: past the circuit breaker, stage 3 contributes 0
whenever the reference strip height min(y1, logo side) is at most 8
pixels (the code runs the stage only for strictly more than 8); whenever
the strip is strictly taller than 8 and its deviation exceeds 5, the
variance score equals clamp(1 - s_wm / s_ref, 0, 1). -/
theorem variance_gate_amended {Pix : Type} (O : DetectOracle) (img : Image Pix)
    (force_size : Option WatermarkSize) (g : DetGeom)
    (hg : g = detect_geom img.cols img.rows force_size)
    (hne : ¬ img.isEmpty) (hx : g.x1 < g.x2) (hy : g.y1 < g.y2)
    (hsp : ¬ O.spatial (detRoi g) < 0.25) :
    (min g.y1 g.config.logo_size ≤ 8 →
      (detect_watermark O img force_size).variance_score = 0) ∧
    (8 < min g.y1 g.config.logo_size →
      5 < O.sd (detRefRect g (min g.y1 g.config.logo_size)) →
      (detect_watermark O img force_size).variance_score =
        clampQ 0 1 (1 - O.sd (detRoi g) /
          O.sd (detRefRect g (min g.y1 g.config.logo_size)))) := by
  subst hg
  have hkey : detect_watermark O img force_size =
      detect_core O (detect_geom img.cols img.rows force_size) := by
    unfold detect_watermark
    rw [if_neg hne, if_neg (by push_neg; exact ⟨hx, hy⟩)]
  rw [hkey]
  unfold detect_core
  rw [if_neg hsp]
  constructor
  · intro hle
    show detVarScore O (detect_geom img.cols img.rows force_size) = 0
    unfold detVarScore
    rw [if_neg (by omega)]
  · intro hgt hsd
    show detVarScore O (detect_geom img.cols img.rows force_size) = _
    unfold detVarScore
    rw [if_pos hgt, if_pos hsd]

/-- Claim C7 amended witness: on a 100x90 image the strip is 10 pixels
tall (strictly more than 8), the oracle reports deviation 10 on it and 0
on the candidate region, and the variance score is clamp(1 - 0/10) = 1;
the strict gate is exercised at a concrete input. -/
theorem variance_gate_amended_witness :
    ¬ (Image.mk 100 90 3 ()).isEmpty ∧
    8 < min (detect_geom 100 90 none).y1 (detect_geom 100 90 none).config.logo_size ∧
    5 < (oracleStrip 10).sd (detRefRect (detect_geom 100 90 none) 10) ∧
    (detect_watermark (oracleStrip 10) (Image.mk 100 90 3 ()) none).variance_score =
      clampQ 0 1 (1 - (oracleStrip 10).sd (detRoi (detect_geom 100 90 none)) /
        (oracleStrip 10).sd (detRefRect (detect_geom 100 90 none) 10)) :=
  ⟨by decide, by decide, by decide,
   (variance_gate_amended (oracleStrip 10) (Image.mk 100 90 3 ()) none
     (detect_geom 100 90 none) rfl (by decide) (by decide) (by decide) (by decide)).2
     (by decide) (by decide)⟩

/-- Claim C1: for a non-empty image with a non-empty clamped candidate
region, a spatial score below 0.25 short-circuits to confidence
spatial * 0.5 with the gradient and variance fields at their zero
defaults; otherwise the confidence is the clamped weighted sum
0.50 spatial + 0.30 gradient + 0.20 variance of the reported stage
scores and detected holds exactly when it reaches 0.35. -/
theorem detect_confidence_fusion {Pix : Type} (O : DetectOracle) (img : Image Pix)
    (force_size : Option WatermarkSize) (g : DetGeom)
    (hg : g = detect_geom img.cols img.rows force_size)
    (hne : ¬ img.isEmpty) (hx : g.x1 < g.x2) (hy : g.y1 < g.y2) :
    (O.spatial (detRoi g) < 0.25 →
      (detect_watermark O img force_size).confidence = O.spatial (detRoi g) * 0.5 ∧
      (detect_watermark O img force_size).gradient_score = 0 ∧
      (detect_watermark O img force_size).variance_score = 0) ∧
    (¬ O.spatial (detRoi g) < 0.25 →
      (detect_watermark O img force_size).confidence =
        clampQ 0 1 (0.50 * (detect_watermark O img force_size).spatial_score +
          0.30 * (detect_watermark O img force_size).gradient_score +
          0.20 * (detect_watermark O img force_size).variance_score) ∧
      ((detect_watermark O img force_size).detected = true ↔
        0.35 ≤ (detect_watermark O img force_size).confidence)) := by
  subst hg
  have hkey : detect_watermark O img force_size =
      detect_core O (detect_geom img.cols img.rows force_size) := by
    unfold detect_watermark
    rw [if_neg hne, if_neg (by push_neg; exact ⟨hx, hy⟩)]
  rw [hkey]
  unfold detect_core
  constructor
  · intro hlt
    rw [if_pos hlt]
    exact ⟨rfl, rfl, rfl⟩
  · intro hge
    rw [if_neg hge]
    refine ⟨?_, ?_⟩
    · show detConfidence O (detect_geom img.cols img.rows force_size) = _
      unfold detConfidence
      congr 1
      ring
    · show decide (detConfidence O (detect_geom img.cols img.rows force_size) ≥ 0.35) = true ↔ _
      simp [ge_iff_le]

/-- Claim C1 witness: both branches exercised concretely. On a 100x90
image an oracle with spatial 0.1 takes the circuit breaker, giving
confidence 0.05 and zero later stages; an oracle with spatial 1,
gradient 0 and a textured strip takes the full fusion, giving the
clamped weighted sum and a positive detection. -/
theorem detect_confidence_fusion_witness :
    ¬ (Image.mk 100 90 3 ()).isEmpty ∧
    (detect_geom 100 90 none).x1 < (detect_geom 100 90 none).x2 ∧
    (detect_geom 100 90 none).y1 < (detect_geom 100 90 none).y2 ∧
    ((detect_watermark (oracleConst 0.1 0 0) (Image.mk 100 90 3 ()) none).confidence =
        (oracleConst 0.1 0 0).spatial (detRoi (detect_geom 100 90 none)) * 0.5 ∧
      (detect_watermark (oracleConst 0.1 0 0) (Image.mk 100 90 3 ()) none).gradient_score = 0 ∧
      (detect_watermark (oracleConst 0.1 0 0) (Image.mk 100 90 3 ()) none).variance_score = 0) ∧
    ((detect_watermark (oracleStrip 10) (Image.mk 100 90 3 ()) none).confidence =
        clampQ 0 1 (0.50 * (detect_watermark (oracleStrip 10) (Image.mk 100 90 3 ()) none).spatial_score +
          0.30 * (detect_watermark (oracleStrip 10) (Image.mk 100 90 3 ()) none).gradient_score +
          0.20 * (detect_watermark (oracleStrip 10) (Image.mk 100 90 3 ()) none).variance_score) ∧
      ((detect_watermark (oracleStrip 10) (Image.mk 100 90 3 ()) none).detected = true ↔
        0.35 ≤ (detect_watermark (oracleStrip 10) (Image.mk 100 90 3 ()) none).confidence)) :=
  ⟨by decide, by decide, by decide,
   (detect_confidence_fusion (oracleConst 0.1 0 0) (Image.mk 100 90 3 ()) none
     (detect_geom 100 90 none) rfl (by decide) (by decide) (by decide)).1 (by decide),
   (detect_confidence_fusion (oracleStrip 10) (Image.mk 100 90 3 ()) none
     (detect_geom 100 90 none) rfl (by decide) (by decide) (by decide)).2 (by decide)⟩

/-- Claim C4: a custom removal over an exactly 48x48 region placed where
the Small margin rule puts the box is pixel-identical to removal with
Small forced, and likewise for 96x96 and Large: the custom path
dispatches to the same precomputed alpha map, position, brightness and
blend call. Quantified over every blend primitive. -/
theorem remove_custom_standard_equiv {Pix Alpha : Type} (P : CvPrims Pix Alpha)
    (eng : WatermarkEngine Alpha) (img : Image Pix) (xs ys xl yl : Int)
    (h48 : (WatermarkPosition.mk 32 32 48).get_position img.cols img.rows = (xs, ys))
    (h96 : (WatermarkPosition.mk 64 64 96).get_position img.cols img.rows = (xl, yl)) :
    remove_watermark_custom P eng img ⟨xs, ys, 48, 48⟩ =
      remove_watermark P eng img (some WatermarkSize.Small) ∧
    remove_watermark_custom P eng img ⟨xl, yl, 96, 96⟩ =
      remove_watermark P eng img (some WatermarkSize.Large) := by
  have hc := ensure_bgr_cols P img
  have hr := ensure_bgr_rows P img
  constructor
  · by_cases hemp : img.isEmpty
    · unfold remove_watermark_custom remove_watermark
      rw [if_pos hemp, if_pos hemp]
    · unfold remove_watermark_custom remove_watermark
      rw [if_neg hemp, if_neg hemp]
      show some _ = some _
      have hpos : (WatermarkPosition.mk 32 32 48).get_position
          (ensure_bgr P img).cols (ensure_bgr P img).rows = (xs, ys) := by
        rw [hc, hr]; exact h48
      simp [hpos, WatermarkEngine.get_alpha_map]
  · by_cases hemp : img.isEmpty
    · unfold remove_watermark_custom remove_watermark
      rw [if_pos hemp, if_pos hemp]
    · unfold remove_watermark_custom remove_watermark
      rw [if_neg hemp, if_neg hemp]
      show some _ = some _
      have hpos : (WatermarkPosition.mk 64 64 96).get_position
          (ensure_bgr P img).cols (ensure_bgr P img).rows = (xl, yl) := by
        rw [hc, hr]; exact h96
      simp [hpos, WatermarkEngine.get_alpha_map]

/-- Claim C4 witness: on a 200x200 image the Small rule puts the box at
(120, 120) and the Large rule at (40, 40); with concrete primitives the
custom 48x48 and 96x96 removals coincide with the forced standard
removals. -/
theorem remove_custom_standard_equiv_witness :
    (WatermarkPosition.mk 32 32 48).get_position 200 200 = (120, 120) ∧
    (WatermarkPosition.mk 64 64 96).get_position 200 200 = (40, 40) ∧
    (remove_watermark_custom trivPrims trivEngine (Image.mk 200 200 3 ()) ⟨120, 120, 48, 48⟩ =
      remove_watermark trivPrims trivEngine (Image.mk 200 200 3 ()) (some WatermarkSize.Small) ∧
    remove_watermark_custom trivPrims trivEngine (Image.mk 200 200 3 ()) ⟨40, 40, 96, 96⟩ =
      remove_watermark trivPrims trivEngine (Image.mk 200 200 3 ()) (some WatermarkSize.Large)) :=
  ⟨by decide, by decide,
   remove_custom_standard_equiv trivPrims trivEngine (Image.mk 200 200 3 ())
     120 120 40 40 (by decide) (by decide)⟩

/-- Claim C5: remove_watermark and add_watermark fail exactly on an empty
image buffer, while detect_watermark is total: an empty image yields the
zero-initialized default result and a degenerate clamped candidate
region yields a zero-confidence, not-detected result with zero stage
scores. -/
theorem empty_image_error_policy {Pix Alpha : Type} (P : CvPrims Pix Alpha)
    (eng : WatermarkEngine Alpha) (O : DetectOracle) (img : Image Pix)
    (force_size : Option WatermarkSize) :
    (remove_watermark P eng img force_size = none ↔ img.isEmpty) ∧
    (add_watermark P eng img force_size = none ↔ img.isEmpty) ∧
    (img.isEmpty → detect_watermark O img force_size = zeroDetection) ∧
    (¬ img.isEmpty →
      ((detect_geom img.cols img.rows force_size).x1 ≥
          (detect_geom img.cols img.rows force_size).x2 ∨
        (detect_geom img.cols img.rows force_size).y1 ≥
          (detect_geom img.cols img.rows force_size).y2) →
      (detect_watermark O img force_size).detected = false ∧
      (detect_watermark O img force_size).confidence = 0 ∧
      (detect_watermark O img force_size).spatial_score = 0 ∧
      (detect_watermark O img force_size).gradient_score = 0 ∧
      (detect_watermark O img force_size).variance_score = 0) := by
  refine ⟨?_, ?_, ?_, ?_⟩
  · unfold remove_watermark
    by_cases hemp : img.isEmpty
    · simp [hemp]
    · simp [hemp]
  · unfold add_watermark
    by_cases hemp : img.isEmpty
    · simp [hemp]
    · simp [hemp]
  · intro hemp
    unfold detect_watermark
    rw [if_pos hemp]
  · intro hne hdeg
    unfold detect_watermark
    rw [if_neg hne, if_pos hdeg]
    exact ⟨rfl, rfl, rfl, rfl, rfl⟩

/-- Claim C5 witness: a 0x0 buffer makes remove and add fail and detect
return the zero default; a 50x50 buffer is processed (no failure); on a
10x10 buffer the clamped candidate region is empty and detect returns
the zero-confidence advisory result. -/
theorem empty_image_error_policy_witness :
    (remove_watermark trivPrims trivEngine (Image.mk 0 0 3 ()) none = none) ∧
    (add_watermark trivPrims trivEngine (Image.mk 0 0 3 ()) none = none) ∧
    (remove_watermark trivPrims trivEngine (Image.mk 50 50 3 ()) none ≠ none) ∧
    (detect_watermark (oracleConst 1 1 1) (Image.mk 0 0 3 ()) none = zeroDetection) ∧
    (detect_watermark (oracleConst 1 1 1) (Image.mk 10 10 3 ()) none).confidence = 0 ∧
    (detect_watermark (oracleConst 1 1 1) (Image.mk 10 10 3 ()) none).detected = false :=
  ⟨(empty_image_error_policy trivPrims trivEngine (oracleConst 1 1 1)
      (Image.mk 0 0 3 ()) none).1.mpr (by decide),
   (empty_image_error_policy trivPrims trivEngine (oracleConst 1 1 1)
      (Image.mk 0 0 3 ()) none).2.1.mpr (by decide),
   fun h => absurd ((empty_image_error_policy trivPrims trivEngine (oracleConst 1 1 1)
      (Image.mk 50 50 3 ()) none).1.mp h) (by decide),
   (empty_image_error_policy trivPrims trivEngine (oracleConst 1 1 1)
      (Image.mk 0 0 3 ()) none).2.2.1 (by decide),
   ((empty_image_error_policy trivPrims trivEngine (oracleConst 1 1 1)
      (Image.mk 10 10 3 ()) none).2.2.2 (by decide) (by decide)).2.1,
   ((empty_image_error_policy trivPrims trivEngine (oracleConst 1 1 1)
      (Image.mk 10 10 3 ()) none).2.2.2 (by decide) (by decide)).1⟩

/-- Ascending insertion grows the length by one. -/
theorem insertAsc_length (x : Int) (l : List Int) :
    (insertAsc x l).length = l.length + 1 := by
  induction l with
  | nil => rfl
  | cons y rest ih =>
    unfold insertAsc
    split_ifs
    · rfl
    · simp only [List.length_cons, ih]

/-- Sorting preserves the length of the scale list. -/
theorem sortAsc_length (l : List Int) : (sortAsc l).length = l.length := by
  induction l with
  | nil => rfl
  | cons x rest ih =>
    unfold sortAsc
    rw [insertAsc_length, ih, List.length_cons]

/-- A non-degenerate loop range yields at least one scale. -/
theorem stepList_length_pos {lo hi step : Int} (h : lo ≤ hi) (hs : 0 < step) :
    0 < (stepList lo hi step).length := by
  unfold stepList
  rw [if_neg (by omega)]
  simp only [List.length_map, List.length_range]
  exact Nat.succ_pos _

/-- With min at most max, the coarse scale list is non-empty. -/
theorem coarseScales_length_pos {lo hi : Int} (h : lo ≤ hi) :
    0 < (coarseScales lo hi).length := by
  unfold coarseScales
  rw [sortAsc_length]
  have hbase := stepList_length_pos h (by norm_num : (0 : Int) < 8)
  simp only [List.foldl_cons, List.foldl_nil]
  split_ifs <;> simp_all [List.length_append]

/-- Claim C6: with the cancellation flag already set at call entry and a
non-degenerate image, search rectangle and size range, guided_detect
reports was_cancelled, does not report a find, and has searched strictly
fewer scales than the total announced sweep. -/
theorem guided_cancel_preset {Pix : Type} (sqrtFn : ℚ → ℚ) (O : GuidedOracle)
    (img : Image Pix) (search_rect : Rect) (min_size0 max_size0 : Int)
    (h0 : ¬ (img.isEmpty ∨ search_rect.width < 8 ∨ search_rect.height < 8))
    (h1 : ¬ ((rectInter search_rect ⟨0, 0, img.cols, img.rows⟩).width < 8 ∨
        (rectInter search_rect ⟨0, 0, img.cols, img.rows⟩).height < 8))
    (h2 : ¬ (max min_size0 16 >
        min max_size0 (min (rectInter search_rect ⟨0, 0, img.cols, img.rows⟩).width
          (rectInter search_rect ⟨0, 0, img.cols, img.rows⟩).height))) :
    (guided_detect sqrtFn O (fun _ => true) img search_rect min_size0 max_size0).was_cancelled = true ∧
    (guided_detect sqrtFn O (fun _ => true) img search_rect min_size0 max_size0).found = false ∧
    (guided_detect sqrtFn O (fun _ => true) img search_rect min_size0 max_size0).scales_searched <
      (guided_detect sqrtFn O (fun _ => true) img search_rect min_size0 max_size0).total_scales := by
  have hlen : 0 < (coarseScales (max min_size0 16)
      (min max_size0 (min (rectInter search_rect ⟨0, 0, img.cols, img.rows⟩).width
        (rectInter search_rect ⟨0, 0, img.cols, img.rows⟩).height))).length :=
    coarseScales_length_pos (not_lt.mp h2)
  obtain ⟨s, rest, hcons⟩ :=
    List.exists_cons_of_ne_nil (List.ne_nil_of_length_pos hlen)
  refine ⟨?_, ?_, ?_⟩ <;>
    simp [guided_detect, h0, h1, h2, hcons, coarseLoop, gdZero]

/-- Claim C6 witness: a concrete pre-cancelled run on a 200x200 image
with a 100x100 search rectangle and range 16 to 96 returns cancelled,
not found, and zero of its eleven scales searched. -/
theorem guided_cancel_preset_witness :
    ¬ ((Image.mk 200 200 3 ()).isEmpty ∨
        (Rect.mk 0 0 100 100).width < 8 ∨ (Rect.mk 0 0 100 100).height < 8) ∧
    ((guided_detect (fun _ => 0) (guidedOracleConst 0) (fun _ => true)
        (Image.mk 200 200 3 ()) ⟨0, 0, 100, 100⟩ 16 96).was_cancelled = true ∧
      (guided_detect (fun _ => 0) (guidedOracleConst 0) (fun _ => true)
        (Image.mk 200 200 3 ()) ⟨0, 0, 100, 100⟩ 16 96).found = false ∧
      (guided_detect (fun _ => 0) (guidedOracleConst 0) (fun _ => true)
        (Image.mk 200 200 3 ()) ⟨0, 0, 100, 100⟩ 16 96).scales_searched <
        (guided_detect (fun _ => 0) (guidedOracleConst 0) (fun _ => true)
          (Image.mk 200 200 3 ()) ⟨0, 0, 100, 100⟩ 16 96).total_scales) :=
  ⟨by decide,
   guided_cancel_preset (fun _ => 0) (guidedOracleConst 0)
     (Image.mk 200 200 3 ()) ⟨0, 0, 100, 100⟩ 16 96
     (by decide) (by decide) (by decide)⟩

/-- Claim C3: the size adjustment multiplies a raw score by the square
root of scale over 96 capped at one, so at the exact rational points a
96x96 raw NCC of 0.30 adjusts to 0.30, a 24x24 raw NCC of 0.58 adjusts
to 0.29, the former strictly outranks the latter, and the top-K
candidate insertion of the coarse phase orders them accordingly. -/
theorem size_adjusted_ranking (sqrtFn : ℚ → ℚ)
    (h1 : sqrtFn 1 = 1) (h4 : sqrtFn (1/4) = 1/2) :
    size_adjusted_score sqrtFn 0.30 96 = 0.30 ∧
    size_adjusted_score sqrtFn 0.58 24 = 0.29 ∧
    size_adjusted_score sqrtFn 0.58 24 < size_adjusted_score sqrtFn 0.30 96 ∧
    insertTopK (insertTopK [] ⟨10, 10, 24, 0.58, size_adjusted_score sqrtFn 0.58 24⟩)
        ⟨5, 5, 96, 0.30, size_adjusted_score sqrtFn 0.30 96⟩ =
      [⟨5, 5, 96, 0.30, 0.30⟩, ⟨10, 10, 24, 0.58, 0.29⟩] := by
  have ha96 : ((96 : Int) : ℚ) / 96 = 1 := by norm_num
  have ha24 : ((24 : Int) : ℚ) / 96 = 1 / 4 := by norm_num
  have e96 : size_adjusted_score sqrtFn 0.30 96 = 0.30 := by
    unfold size_adjusted_score
    rw [ha96, h1, min_self, mul_one]
  have e24 : size_adjusted_score sqrtFn 0.58 24 = 0.29 := by
    unfold size_adjusted_score
    rw [ha24, h4, min_eq_left (by norm_num : (1 : ℚ) / 2 ≤ 1)]
    norm_num
  refine ⟨e96, e24, ?_, ?_⟩
  · rw [e96, e24]
    norm_num
  · rw [e96, e24]
    decide

set_option maxRecDepth 40000 in
/-- Claim C3 witness: at the tabulated exact square roots, the ranking
inequality holds, and a full guided run whose oracle reports raw NCC
0.58 at scale 24 and 0.30 at scale 96 locates the 96x96 instance (its
reported raw score is 0.30), despite the higher raw score at 24. -/
theorem size_adjusted_ranking_witness :
    sqrtTab 1 = 1 ∧ sqrtTab (1 / 4) = 1 / 2 ∧
    size_adjusted_score sqrtTab 0.58 24 < size_adjusted_score sqrtTab 0.30 96 ∧
    (guided_detect sqrtTab guidedOracleRank (fun _ => false)
      (Image.mk 300 300 3 ()) ⟨0, 0, 200, 200⟩ 24 96).detected_size = 96 ∧
    (guided_detect sqrtTab guidedOracleRank (fun _ => false)
      (Image.mk 300 300 3 ()) ⟨0, 0, 200, 200⟩ 24 96).raw_ncc = 0.30 :=
  ⟨by decide, by decide,
   (size_adjusted_ranking sqrtTab (by decide) (by decide)).2.2.1,
   by decide, by decide⟩
